import Mathlib

/-!
Verification of the core components of the `cracker` interview-assistant
repository, shallowly embedded from `src/utils/gemini.js` (audio chunker,
streaming session manager, reconnection controller) and from the renderer
source (`convertFloat32ToInt16`).

Bytes are modelled as `Nat`, byte buffers as `List Nat` (only the FIFO
structure of `Buffer.concat` / `Buffer.slice` matters to the claims).
-/

namespace Cracker

/-! ## Audio chunker (startMacOSAudioCapture, gemini.js lines 446-475) -/

def SAMPLE_RATE : Nat := 24000

def BYTES_PER_SAMPLE : Nat := 2

def CHANNELS : Nat := 2

/-- `CHUNK_SIZE = SAMPLE_RATE * BYTES_PER_SAMPLE * CHANNELS * CHUNK_DURATION`
with `CHUNK_DURATION = 0.1`.  In IEEE-754 binary64 the product
`((24000*2)*2)*0.1` evaluates to exactly `9600.0`, so the integer `9600`
is the faithful value. -/
def CHUNK_SIZE : Nat := SAMPLE_RATE * BYTES_PER_SAMPLE * CHANNELS / 10

/-- `maxBufferSize = SAMPLE_RATE * BYTES_PER_SAMPLE * 1` (gemini.js line 471),
the retention cap applied after chunk extraction. -/
def maxBufferSize : Nat := SAMPLE_RATE * BYTES_PER_SAMPLE * 1

theorem CHUNK_SIZE_eq : CHUNK_SIZE = 9600 := rfl

theorem maxBufferSize_eq : maxBufferSize = 48000 := rfl

/-- The extraction loop of the `stdout.on('data')` handler:
`while (audioBuffer.length >= CHUNK_SIZE) { chunk = audioBuffer.slice(0, CHUNK_SIZE);
audioBuffer = audioBuffer.slice(CHUNK_SIZE); ...emit chunk... }`,
written with an explicit iteration bound (each iteration removes
`CHUNK_SIZE ≥ 1` bytes, so `buf.length` iterations always suffice;
see `extractChunks`).  Returns the emitted chunks in emission order and the
final buffer. -/
def extractChunksFuel : Nat → List Nat → List (List Nat) × List Nat
  | 0, buf => ([], buf)
  | fuel + 1, buf =>
    if CHUNK_SIZE ≤ buf.length then
      let r := extractChunksFuel fuel (buf.drop CHUNK_SIZE)
      (buf.take CHUNK_SIZE :: r.1, r.2)
    else
      ([], buf)

/-- The extraction loop run to completion on `buf`. -/
def extractChunks (buf : List Nat) : List (List Nat) × List Nat :=
  extractChunksFuel buf.length buf

/-- The truncation step after extraction (gemini.js lines 471-474):
`if (audioBuffer.length > maxBufferSize) audioBuffer = audioBuffer.slice(-maxBufferSize)`.
`Buffer.slice(-n)` keeps the last `n` bytes. -/
def truncateBuf (buf : List Nat) : List Nat :=
  if maxBufferSize < buf.length then buf.drop (buf.length - maxBufferSize) else buf

/-- One `data` event of the capture source: append the delivery to the buffer
(`Buffer.concat`), run the extraction loop, then apply the retention cap. -/
def onData (buf data : List Nat) : List (List Nat) × List Nat :=
  ((extractChunks (buf ++ data)).1, truncateBuf (extractChunks (buf ++ data)).2)

/-- Process a sequence of capture deliveries starting from buffer `buf`,
collecting all emitted chunks in emission order. -/
def runCaptureFrom (buf : List Nat) : List (List Nat) → List (List Nat) × List Nat
  | [] => ([], buf)
  | d :: ds =>
    let r := onData buf d
    let s := runCaptureFrom r.2 ds
    (r.1 ++ s.1, s.2)

/-- Process a sequence of capture deliveries starting from the initial empty
buffer (`Buffer.alloc(0)`). -/
def runCapture (ds : List (List Nat)) : List (List Nat) × List Nat :=
  runCaptureFrom [] ds

/-- The buffer retained after each successive `data` event, starting from
buffer `buf`. -/
def captureBufsFrom (buf : List Nat) : List (List Nat) → List (List Nat)
  | [] => []
  | d :: ds =>
    let b := (onData buf d).2
    b :: captureBufsFrom b ds

/-- The buffer retained after each successive `data` event, starting from the
initial empty buffer. -/
def captureBufs (ds : List (List Nat)) : List (List Nat) :=
  captureBufsFrom [] ds

theorem extractChunksFuel_spec (fuel : Nat) :
    ∀ buf : List Nat, buf.length ≤ fuel →
    (extractChunksFuel fuel buf).1.join ++ (extractChunksFuel fuel buf).2 = buf ∧
    (extractChunksFuel fuel buf).2.length < CHUNK_SIZE ∧
    ∀ c ∈ (extractChunksFuel fuel buf).1, c.length = CHUNK_SIZE := by
  induction fuel with
  | zero =>
    intro buf hb
    have hbe : buf = [] := List.length_eq_zero.mp (Nat.le_zero.mp hb)
    subst hbe
    refine ⟨rfl, ?_, ?_⟩
    · show ([] : List Nat).length < CHUNK_SIZE
      rw [CHUNK_SIZE_eq]
      norm_num
    · intro c hc
      exact absurd hc (List.not_mem_nil c)
  | succ fuel ih =>
    intro buf hb
    by_cases h : CHUNK_SIZE ≤ buf.length
    · have hc9 : CHUNK_SIZE = 9600 := CHUNK_SIZE_eq
      have hdl : (buf.drop CHUNK_SIZE).length ≤ fuel := by
        rw [List.length_drop]
        omega
      obtain ⟨ih1, ih2, ih3⟩ := ih (buf.drop CHUNK_SIZE) hdl
      simp only [extractChunksFuel, if_pos h, List.join_cons, List.mem_cons]
      refine ⟨?_, ih2, ?_⟩
      · rw [List.append_assoc, ih1, List.take_append_drop]
      · rintro c (rfl | hc)
        · simpa using h
        · exact ih3 c hc
    · simp only [extractChunksFuel, if_neg h, List.join_nil, List.nil_append,
        List.not_mem_nil, false_implies, implies_true, and_true, true_and]
      omega

theorem extractChunks_spec (buf : List Nat) :
    (extractChunks buf).1.join ++ (extractChunks buf).2 = buf ∧
    (extractChunks buf).2.length < CHUNK_SIZE ∧
    ∀ c ∈ (extractChunks buf).1, c.length = CHUNK_SIZE :=
  extractChunksFuel_spec buf.length buf le_rfl

theorem truncateBuf_eq_self (buf : List Nat) (h : buf.length ≤ maxBufferSize) :
    truncateBuf buf = buf := by
  unfold truncateBuf
  rw [if_neg (by omega)]

theorem onData_spec (buf data : List Nat) :
    (onData buf data).1.join ++ (onData buf data).2 = buf ++ data ∧
    (onData buf data).2.length < CHUNK_SIZE ∧
    ∀ c ∈ (onData buf data).1, c.length = CHUNK_SIZE := by
  obtain ⟨h1, h2, h3⟩ := extractChunks_spec (buf ++ data)
  have hcap : (extractChunks (buf ++ data)).2.length ≤ maxBufferSize := by
    rw [CHUNK_SIZE_eq] at h2
    rw [maxBufferSize_eq]
    omega
  unfold onData
  rw [truncateBuf_eq_self _ hcap]
  exact ⟨h1, h2, h3⟩

theorem runCaptureFrom_spec (ds : List (List Nat)) (buf : List Nat)
    (hb : buf.length < CHUNK_SIZE) :
    (runCaptureFrom buf ds).1.join ++ (runCaptureFrom buf ds).2 = buf ++ ds.join ∧
    (runCaptureFrom buf ds).2.length < CHUNK_SIZE ∧
    ∀ c ∈ (runCaptureFrom buf ds).1, c.length = CHUNK_SIZE := by
  induction ds generalizing buf with
  | nil => simp [runCaptureFrom, hb]
  | cons d ds ih =>
    obtain ⟨o1, o2, o3⟩ := onData_spec buf d
    obtain ⟨r1, r2, r3⟩ := ih (onData buf d).2 o2
    refine ⟨?_, r2, ?_⟩
    · simp only [runCaptureFrom, List.join_append, List.join_cons]
      rw [List.append_assoc, r1, ← List.append_assoc, o1, List.append_assoc]
    · intro c hc
      simp only [runCaptureFrom, List.mem_append] at hc
      rcases hc with hc | hc
      · exact o3 c hc
      · exact r3 c hc

theorem length_join_of_sizes (l : List (List Nat)) (k : Nat)
    (h : ∀ c ∈ l, c.length = k) : l.join.length = l.length * k := by
  induction l with
  | nil => simp
  | cons c cs ih =>
    simp only [List.join_cons, List.length_append, List.length_cons]
    rw [h c (by simp), ih (fun x hx => h x (by simp [hx]))]
    ring

/-- C1: for every sequence of capture deliveries whose total byte length is a
multiple of the chunk size (9600 bytes), the chunks extracted by the buffering
loop, concatenated in emission order, equal the delivered bytes concatenated in
delivery order, and every emitted chunk is exactly `CHUNK_SIZE` bytes (FIFO,
contiguous, never short, never merged). -/
theorem chunker_exact_segmentation (ds : List (List Nat))
    (h : ds.join.length % CHUNK_SIZE = 0) :
    (runCapture ds).1.join = ds.join ∧
    ∀ c ∈ (runCapture ds).1, c.length = CHUNK_SIZE := by
  have hb : ([] : List Nat).length < CHUNK_SIZE := by decide
  obtain ⟨h1, h2, h3⟩ := runCaptureFrom_spec ds [] hb
  simp only [List.nil_append] at h1
  refine ⟨?_, h3⟩
  have hlen : (runCapture ds).1.join.length + (runCapture ds).2.length
      = ds.join.length := by
    have := congrArg List.length h1
    simpa [runCapture] using this
  have hjl : (runCapture ds).1.join.length
      = (runCapture ds).1.length * CHUNK_SIZE :=
    length_join_of_sizes _ _ h3
  have h2' : (runCapture ds).2.length < CHUNK_SIZE := h2
  rw [CHUNK_SIZE_eq] at hjl h2' h
  have hrem : (runCapture ds).2.length = 0 := by omega
  have hnil : (runCapture ds).2 = [] := List.length_eq_zero.mp hrem
  rw [runCapture] at *
  rw [hnil] at h1
  simpa using h1

/-- C1 witness: a concrete run discharging the divisibility hypothesis. -/
theorem chunker_exact_segmentation_witness :
    (List.join ([] : List (List Nat))).length % CHUNK_SIZE = 0 ∧
    ((runCapture []).1.join = List.join ([] : List (List Nat)) ∧
      ∀ c ∈ (runCapture []).1, c.length = CHUNK_SIZE) :=
  ⟨by decide, chunker_exact_segmentation [] (by decide)⟩

theorem captureBufsFrom_bounded (ds : List (List Nat)) (buf : List Nat) :
    ∀ b ∈ captureBufsFrom buf ds, b.length < CHUNK_SIZE := by
  induction ds generalizing buf with
  | nil => simp [captureBufsFrom]
  | cons d ds ih =>
    intro b hb
    simp only [captureBufsFrom, List.mem_cons] at hb
    rcases hb with rfl | hb
    · exact (onData_spec buf d).2.1
    · exact ih _ b hb

/-- C2: after every capture-data event the retained buffer never exceeds the
retention cap `maxBufferSize` (1 second of audio, 48000 bytes); and the
truncation step, whenever it fires (buffer longer than the cap), keeps exactly
the most recent `maxBufferSize` bytes — a suffix of the buffer, the oldest
bytes dropped. -/
theorem capture_buffer_capped :
    (∀ ds : List (List Nat), ∀ b ∈ captureBufs ds, b.length ≤ maxBufferSize) ∧
    (∀ buf : List Nat, maxBufferSize < buf.length →
      truncateBuf buf <:+ buf ∧ (truncateBuf buf).length = maxBufferSize ∧
      truncateBuf buf = buf.drop (buf.length - maxBufferSize)) := by
  constructor
  · intro ds b hb
    have h := captureBufsFrom_bounded ds [] b hb
    rw [CHUNK_SIZE_eq] at h
    rw [maxBufferSize_eq]
    omega
  · intro buf h
    have he : truncateBuf buf = buf.drop (buf.length - maxBufferSize) := by
      unfold truncateBuf
      rw [if_pos h]
    refine ⟨?_, ?_, he⟩
    · rw [he]; exact List.drop_suffix _ _
    · rw [he, List.length_drop]; omega

/-- C2 witness: both conjuncts applied at concrete inputs. -/
theorem capture_buffer_capped_witness :
    ([0] ∈ captureBufs [[0]] ∧ ([0] : List Nat).length ≤ maxBufferSize) ∧
    (maxBufferSize < (List.replicate (maxBufferSize + 1) 0).length ∧
      truncateBuf (List.replicate (maxBufferSize + 1) 0) <:+
        List.replicate (maxBufferSize + 1) 0) :=
  ⟨⟨by decide, capture_buffer_capped.1 [[0]] [0] (by decide)⟩,
   ⟨by simp, (capture_buffer_capped.2 (List.replicate (maxBufferSize + 1) 0)
      (by simp)).1⟩⟩

/-! ## Float-to-PCM conversion (`convertFloat32ToInt16`, renderer source)

The JavaScript function is

    function convertFloat32ToInt16(float32Array) {
        const int16Array = new Int16Array(float32Array.length);
        for (let i = 0; i < float32Array.length; i++) {
            const s = Math.max(-1, Math.min(1, float32Array[i]));
            int16Array[i] = s < 0 ? s * 0x8000 : s * 0x7fff;
        }
        return int16Array;
    }

Samples are modelled as exact rationals: the clamp is pure ordering, and for
the clamped range the products by `0x8000`/`0x7fff` stay well inside the
binary64 exact-integer range, so exact rational arithmetic agrees with the
JavaScript double arithmetic on every claim-relevant input.  Storing into an
`Int16Array` applies ECMAScript `ToInt16`: truncation toward zero, then
reduction modulo 2^16 into `[-2^15, 2^15)`. -/

/-- Truncation toward zero of a rational, as ECMAScript number-to-integer
conversion performs it. -/
def truncJS (q : ℚ) : ℤ :=
  if q < 0 then ⌈q⌉ else ⌊q⌋

/-- ECMAScript `ToInt16` on an exact rational: truncate toward zero, reduce
modulo 2^16, reinterpret into `[-32768, 32768)`. -/
def toInt16 (q : ℚ) : ℤ :=
  if 32768 ≤ truncJS q % 65536 then truncJS q % 65536 - 65536
  else truncJS q % 65536

/-- One sample of `convertFloat32ToInt16`: clamp to `[-1, 1]`, scale by
`0x8000` for negative values and `0x7fff` otherwise, store as `Int16`. -/
def float32SampleToInt16 (x : ℚ) : ℤ :=
  let s := max (-1) (min 1 x)
  if s < 0 then toInt16 (s * 0x8000) else toInt16 (s * 0x7fff)

/-- `convertFloat32ToInt16` maps each input sample through
`float32SampleToInt16` into an output array of the same length. -/
def convertFloat32ToInt16 (xs : List ℚ) : List ℤ :=
  xs.map float32SampleToInt16

theorem toInt16_eq_of_range (t : ℤ) (q : ℚ)
    (ht : t = truncJS q) (h1 : -32768 ≤ t) (h2 : t ≤ 32767) :
    toInt16 q = t := by
  unfold toInt16
  rw [← ht]
  omega

theorem float32SampleToInt16_spec (x : ℚ) :
    (x = 1 → float32SampleToInt16 x = 32767) ∧
    (x = -1 → float32SampleToInt16 x = -32768) ∧
    (x = 0 → float32SampleToInt16 x = 0) ∧
    (1 ≤ x → float32SampleToInt16 x = 32767) ∧
    (x ≤ -1 → float32SampleToInt16 x = -32768) ∧
    (-32768 ≤ float32SampleToInt16 x ∧ float32SampleToInt16 x ≤ 32767) := by
  have key : ∀ y : ℚ, 1 ≤ y → float32SampleToInt16 y = 32767 := by
    intro y hy
    unfold float32SampleToInt16
    have hmin : min 1 y = 1 := min_eq_left hy
    rw [hmin]
    have hmax : max (-1 : ℚ) 1 = 1 := by norm_num
    rw [hmax, if_neg (by norm_num)]
    apply toInt16_eq_of_range 32767
    · unfold truncJS
      rw [if_neg (by norm_num)]
      rw [show (1 : ℚ) * 32767 = ((32767 : ℤ) : ℚ) from by norm_num, Int.floor_intCast]
    · norm_num
    · norm_num
  have keyn : ∀ y : ℚ, y ≤ -1 → float32SampleToInt16 y = -32768 := by
    intro y hy
    unfold float32SampleToInt16
    have hmin : min 1 y = y := min_eq_right (by linarith)
    rw [hmin]
    have hmax : max (-1 : ℚ) y = -1 := max_eq_left hy
    rw [hmax, if_pos (by norm_num)]
    apply toInt16_eq_of_range (-32768)
    · unfold truncJS
      rw [if_pos (by norm_num)]
      rw [show (-1 : ℚ) * 32768 = ((-32768 : ℤ) : ℚ) from by norm_num, Int.ceil_intCast]
    · norm_num
    · norm_num
  refine ⟨fun hx => key x (by rw [hx]), fun hx => keyn x (by rw [hx]), ?_, key x, keyn x, ?_⟩
  · intro hx
    subst hx
    unfold float32SampleToInt16
    rw [min_eq_right (by norm_num : (0 : ℚ) ≤ 1),
      max_eq_right (by norm_num : (-1 : ℚ) ≤ 0), if_neg (by norm_num)]
    apply toInt16_eq_of_range 0
    · unfold truncJS
      rw [if_neg (by norm_num)]
      rw [show (0 : ℚ) * 32767 = ((0 : ℤ) : ℚ) from by norm_num, Int.floor_intCast]
    · norm_num
    · norm_num
  · -- range: the clamped value lies in [-1, 1], so the scaled value never wraps
    unfold float32SampleToInt16
    set s : ℚ := max (-1) (min 1 x) with hs
    have hsl : -1 ≤ s := le_max_left _ _
    have hsu : s ≤ 1 := by
      rw [hs]
      rcases le_total 1 x with h | h
      · rw [min_eq_left h]
        norm_num
      · rw [min_eq_right h]
        exact max_le (by norm_num) h
    by_cases hneg : s < 0
    · rw [if_pos hneg]
      have hb1 : (-32768 : ℚ) ≤ s * 32768 := by nlinarith
      have hb2 : s * 32768 ≤ 0 := by nlinarith
      have ht : truncJS (s * 32768) = ⌈s * (32768 : ℚ)⌉ := by
        unfold truncJS
        rw [if_pos (by nlinarith)]
      have hc1 : (-32768 : ℤ) ≤ ⌈s * (32768 : ℚ)⌉ := by
        have hle : (-32768 : ℚ) ≤ (⌈s * (32768 : ℚ)⌉ : ℚ) :=
          le_trans hb1 (Int.le_ceil _)
        exact_mod_cast hle
      have hc2 : ⌈s * (32768 : ℚ)⌉ ≤ 0 := Int.ceil_le.mpr (by exact_mod_cast hb2)
      rw [toInt16_eq_of_range ⌈s * (32768 : ℚ)⌉ _ ht.symm (by omega) (by omega)]
      constructor <;> omega
    · rw [if_neg hneg]
      push_neg at hneg
      have hb1 : (0 : ℚ) ≤ s * 32767 := by nlinarith
      have hb2 : s * 32767 ≤ 32767 := by nlinarith
      have ht : truncJS (s * 32767) = ⌊s * (32767 : ℚ)⌋ := by
        unfold truncJS
        rw [if_neg (by nlinarith)]
      have hf1 : (0 : ℤ) ≤ ⌊s * (32767 : ℚ)⌋ := Int.le_floor.mpr (by exact_mod_cast hb1)
      have hf2 : ⌊s * (32767 : ℚ)⌋ ≤ 32767 := by
        have hle : (⌊s * (32767 : ℚ)⌋ : ℚ) ≤ 32767 :=
          le_trans (Int.floor_le _) hb2
        exact_mod_cast hle
      rw [toInt16_eq_of_range ⌊s * (32767 : ℚ)⌋ _ ht.symm (by omega) (by omega)]
      constructor <;> omega

/-- C9: `convertFloat32ToInt16` preserves the array length, maps 1.0 to 0x7FFF,
-1.0 to -0x8000, and 0.0 to 0, clamps out-of-range input to the corresponding
endpoint value before scaling, and never wraps (every output lies in
`[-32768, 32767]`). -/
theorem convert_float32_spec (xs : List ℚ) (i : Nat) (h : i < xs.length) :
    (convertFloat32ToInt16 xs).length = xs.length ∧
    (convertFloat32ToInt16 xs)[i]! = float32SampleToInt16 xs[i]! ∧
    (xs[i]! = 1 → (convertFloat32ToInt16 xs)[i]! = 32767) ∧
    (xs[i]! = -1 → (convertFloat32ToInt16 xs)[i]! = -32768) ∧
    (xs[i]! = 0 → (convertFloat32ToInt16 xs)[i]! = 0) ∧
    (1 ≤ xs[i]! → (convertFloat32ToInt16 xs)[i]! = 32767) ∧
    (xs[i]! ≤ -1 → (convertFloat32ToInt16 xs)[i]! = -32768) ∧
    (-32768 ≤ (convertFloat32ToInt16 xs)[i]! ∧ (convertFloat32ToInt16 xs)[i]! ≤ 32767) := by
  have hlen : (convertFloat32ToInt16 xs).length = xs.length := by
    simp [convertFloat32ToInt16]
  have hget : (convertFloat32ToInt16 xs)[i]! = float32SampleToInt16 xs[i]! := by
    have hi2 : i < (convertFloat32ToInt16 xs).length := by rw [hlen]; exact h
    rw [getElem!_pos (convertFloat32ToInt16 xs) i hi2, getElem!_pos xs i h]
    simp [convertFloat32ToInt16]
  obtain ⟨s1, s2, s3, s4, s5, s6⟩ := float32SampleToInt16_spec xs[i]!
  rw [hget]
  exact ⟨hlen, rfl, s1, s2, s3, s4, s5, s6⟩

/-- C9 witness: the conversion evaluated on the concrete array
`[1, -1, 0, 3/2]`. -/
theorem convert_float32_spec_witness :
    (0 : Nat) < ([1, -1, 0, 3/2] : List ℚ).length ∧
    (convertFloat32ToInt16 [1, -1, 0, 3/2]).length = ([1, -1, 0, 3/2] : List ℚ).length :=
  ⟨by norm_num, (convert_float32_spec [1, -1, 0, 3/2] 0 (by norm_num)).1⟩

/-! ## Streaming session manager and reconnection controller (gemini.js)

The module-level mutable variables of `gemini.js` are gathered into one
record.  JavaScript string truthiness is modelled as inequality with `""`;
a `null` object reference is `Option.none`.  Transport, timer and renderer
side effects are recorded as an event trace; the opaque network client is
abstracted by boolean outcome oracles. -/

/-- The ASCII whitespace characters stripped by JavaScript
`String.prototype.trim` (the Unicode-only cases never arise in the claims). -/
def isWhitespaceChar (c : Char) : Bool :=
  c = ' ' ∨ c = '\t' ∨ c = '\n' ∨ c = '\r' ∨ c = '\x0b' ∨ c = '\x0c'

/-- JavaScript `String.prototype.trim`: strip leading and trailing
whitespace. -/
def jsTrim (s : String) : String :=
  ⟨((s.data.dropWhile isWhitespaceChar).reverse.dropWhile isWhitespaceChar).reverse⟩

structure SessionParams where
  apiKey : String
  customPrompt : String
  profile : String
  language : String
  deriving DecidableEq, Repr

structure ConversationTurn where
  timestamp : Nat
  transcription : String
  ai_response : String
  deriving DecidableEq, Repr

structure GeminiState where
  currentSessionId : Option String
  currentTranscription : String
  messageBuffer : String
  conversationHistory : List ConversationTurn
  isInitializingSession : Bool
  lastSessionParams : Option SessionParams
  reconnectionAttempts : Nat
  deriving DecidableEq, Repr

def maxReconnectionAttempts : Nat := 3

def reconnectionDelay : Nat := 2000

/-- Observable side effects: timer waits, renderer status updates, transport
calls.  `delay` is the reconnection sleep, `attemptStart` the start of the
`n`-th reconnection attempt (after its delay), `connected` the assignment of a
fresh live session to the session reference, `handshake` the
`client.live.connect` call, `contextSent` a `sendRealtimeInput({text})` frame,
`statusMsg` an `update-status` renderer notification, `sessionInitializing`
the `session-initializing` renderer notification. -/
inductive Event where
  | delay (ms : Nat)
  | attemptStart (n : Nat)
  | connected
  | handshake
  | contextSent (msg : String)
  | statusMsg (s : String)
  | sessionInitializing (b : Bool)
  deriving DecidableEq, Repr

/-- One diarization result entry: `transcript`/`speakerId` truthiness guards
the formatting (gemini.js lines 18-27). -/
structure SpeakerResult where
  transcript : String
  speakerId : Nat
  deriving DecidableEq, Repr

/-- `formatSpeakerResults`: label speaker 1 as Interviewer, everyone else as
Candidate, skipping entries with a falsy transcript or speaker id. -/
def formatSpeakerResults (results : List SpeakerResult) : String :=
  results.foldl
    (fun text r =>
      if r.transcript ≠ "" ∧ r.speakerId ≠ 0 then
        text ++ "[" ++ (if r.speakerId = 1 then "Interviewer" else "Candidate")
          ++ "]: " ++ r.transcript ++ "\n"
      else text)
    ""

/-- `initializeNewSession` (gemini.js lines 49-54): fresh session id from the
clock, transcription and history reset. -/
def initNewSession (now : Nat) (st : GeminiState) : GeminiState :=
  { st with
    currentSessionId := some (toString now)
    currentTranscription := ""
    conversationHistory := [] }

/-- `saveConversationTurn` (gemini.js lines 56-76): lazily create a session,
then push a turn with trimmed transcription and response. -/
def saveConversationTurn (now : Nat) (st : GeminiState)
    (transcription aiResponse : String) : GeminiState :=
  let st1 := if st.currentSessionId = none then initNewSession now st else st
  { st1 with
    conversationHistory := st1.conversationHistory ++
      [⟨now, jsTrim transcription, jsTrim aiResponse⟩] }

/-- The fields of a server message that the `onmessage` callback reads
(gemini.js lines 258-291).  `none` models an absent optional field. -/
structure ServerMessage where
  inputTranscriptionResults : Option (List SpeakerResult)
  modelTurnParts : Option (List (Option String))
  generationComplete : Bool
  turnComplete : Bool
  deriving Repr

/-- JavaScript `String.prototype.includes`: substring containment. -/
def jsIncludes (s pat : String) : Bool :=
  decide (pat.data <:+: s.data)

/-- The `onmessage` callback of the first `initializeGeminiSession` variant
(gemini.js lines 258-291): accumulate transcription, accumulate response
text, and on `generationComplete` save a turn when both accumulators are
non-empty (clearing the transcription), then unconditionally clear the
response buffer.  The `turnComplete` branch only emits a status update. -/
def onmessage (now : Nat) (st : GeminiState) (m : ServerMessage) : GeminiState :=
  let st1 :=
    match m.inputTranscriptionResults with
    | some rs =>
      { st with currentTranscription :=
          st.currentTranscription ++ formatSpeakerResults rs }
    | none => st
  let st2 :=
    match m.modelTurnParts with
    | some parts =>
      parts.foldl
        (fun s p =>
          match p with
          | some t => { s with messageBuffer := s.messageBuffer ++ t }
          | none => s)
        st1
    | none => st1
  if m.generationComplete then
    let st3 :=
      if st2.currentTranscription ≠ "" ∧ st2.messageBuffer ≠ "" then
        let st' := saveConversationTurn now st2 st2.currentTranscription st2.messageBuffer
        { st' with currentTranscription := "" }
      else st2
    { st3 with messageBuffer := "" }
  else st2

/-! ### The second `onmessage` variant (gemini.js lines 1521-1563)

The second copy of the module is byte-identical to the first in every
function the claims touch except `onmessage`: it additionally tracks
`recentVoiceQuestion`, `voiceQuestionTimestamp` and `awaitingManualResponse`,
gates both the response accumulation and the turn-saving block on
`awaitingManualResponse`, and resets that flag whenever a freshly formatted
transcription contains `[Interviewer]:` — before the `generationComplete`
check of the same message runs. -/

/-- The module state of the second variant, restricted to the fields its
`onmessage` callback reads or writes (its reconnection and initialization
state is identical to the first variant's and is modelled by `GeminiState`). -/
structure ManualGeminiState where
  currentSessionId : Option String
  currentTranscription : String
  messageBuffer : String
  conversationHistory : List ConversationTurn
  recentVoiceQuestion : String
  voiceQuestionTimestamp : Option Nat
  awaitingManualResponse : Bool
  deriving DecidableEq, Repr

/-- `initializeNewSession` of the second variant (gemini.js lines
1228-1233): identical to the first variant's. -/
def initNewSessionM (now : Nat) (st : ManualGeminiState) : ManualGeminiState :=
  { st with
    currentSessionId := some (toString now)
    currentTranscription := ""
    conversationHistory := [] }

/-- `saveConversationTurn` of the second variant (gemini.js lines
1235-1255): identical to the first variant's. -/
def saveConversationTurnM (now : Nat) (st : ManualGeminiState)
    (transcription aiResponse : String) : ManualGeminiState :=
  let st1 := if st.currentSessionId = none then initNewSessionM now st else st
  { st1 with
    conversationHistory := st1.conversationHistory ++
      [⟨now, jsTrim transcription, jsTrim aiResponse⟩] }

/-- The `onmessage` callback of the second `initializeGeminiSession` variant
(gemini.js lines 1521-1563): transcription accumulation also stores the
recent voice question and clears `awaitingManualResponse` when the new text
contains `[Interviewer]:`; response accumulation and the turn-saving
`generationComplete` block run only while `awaitingManualResponse` is set,
and the block also clears the flag. -/
def onmessageManual (now : Nat) (st : ManualGeminiState) (m : ServerMessage) :
    ManualGeminiState :=
  let st1 :=
    match m.inputTranscriptionResults with
    | some rs =>
      let newTranscription := formatSpeakerResults rs
      let s := { st with currentTranscription :=
          st.currentTranscription ++ newTranscription }
      if jsIncludes newTranscription "[Interviewer]:" then
        { s with
          recentVoiceQuestion := s.currentTranscription
          voiceQuestionTimestamp := some now
          awaitingManualResponse := false }
      else s
    | none => st
  let st2 :=
    if st1.awaitingManualResponse then
      match m.modelTurnParts with
      | some parts =>
        parts.foldl
          (fun s p =>
            match p with
            | some t => { s with messageBuffer := s.messageBuffer ++ t }
            | none => s)
          st1
      | none => st1
    else st1
  if st2.awaitingManualResponse && m.generationComplete then
    let st3 :=
      if st2.currentTranscription ≠ "" ∧ st2.messageBuffer ≠ "" then
        let st' := saveConversationTurnM now st2 st2.currentTranscription st2.messageBuffer
        { st' with currentTranscription := "" }
      else st2
    { st3 with messageBuffer := "", awaitingManualResponse := false }
  else st2

/-- C3 counterexample: the claim fails on both handlers.  In the first, a
completion event with only the response side populated leaves the history
unchanged but clears (discards) the populated response buffer instead of
holding it.  In the second, a completion event with both sides populated but
`awaitingManualResponse = false` appends nothing and clears nothing. -/
theorem turn_completion_cex :
    ((onmessage 0
        ⟨some "1", "", "answer", [], false, none, 0⟩
        ⟨none, none, true, true⟩).conversationHistory =
      (⟨some "1", "", "answer", [], false, none, 0⟩ : GeminiState).conversationHistory ∧
    (⟨some "1", "", "answer", [], false, none, 0⟩ : GeminiState).messageBuffer ≠ "" ∧
    (onmessage 0
        ⟨some "1", "", "answer", [], false, none, 0⟩
        ⟨none, none, true, true⟩).messageBuffer ≠
      (⟨some "1", "", "answer", [], false, none, 0⟩ : GeminiState).messageBuffer) ∧
    ((⟨some "1", "q", "a", [], "", none, false⟩ : ManualGeminiState).currentTranscription ≠ "" ∧
    (⟨some "1", "q", "a", [], "", none, false⟩ : ManualGeminiState).messageBuffer ≠ "" ∧
    onmessageManual 0 ⟨some "1", "q", "a", [], "", none, false⟩
        ⟨none, none, true, true⟩ =
      ⟨some "1", "q", "a", [], "", none, false⟩) := by
  exact ⟨⟨rfl, by decide, by decide⟩, ⟨by decide, by decide, by decide⟩⟩

/-- C3 (amended): on a completion event in the first handler, a
`ConversationTurn` (with trimmed texts) is appended iff both pending buffers
are non-empty, in which case both are cleared; if the transcript alone is
populated it is preserved, but a populated response with an empty transcript
is cleared (discarded), not held.  The second handler behaves the same only
while a manual response is awaited (its completion block additionally clears
the awaiting flag); when `awaitingManualResponse` is false the completion is
ignored outright — history and both buffers unchanged — and an
`[Interviewer]:` transcription carried by the same message resets the flag
before the completion check, so such a message never appends a turn. -/
theorem turn_completion_amended (now : Nat) (st : GeminiState)
    (stM : ManualGeminiState) (tc : Bool)
    (hsid : st.currentSessionId ≠ none) (hsidM : stM.currentSessionId ≠ none) :
    ((st.currentTranscription ≠ "" ∧ st.messageBuffer ≠ "") →
      (onmessage now st ⟨none, none, true, tc⟩).conversationHistory =
          st.conversationHistory ++
            [⟨now, jsTrim st.currentTranscription, jsTrim st.messageBuffer⟩] ∧
        (onmessage now st ⟨none, none, true, tc⟩).currentTranscription = "" ∧
        (onmessage now st ⟨none, none, true, tc⟩).messageBuffer = "") ∧
    (st.messageBuffer = "" →
      (onmessage now st ⟨none, none, true, tc⟩).conversationHistory =
          st.conversationHistory ∧
        (onmessage now st ⟨none, none, true, tc⟩).currentTranscription =
          st.currentTranscription ∧
        (onmessage now st ⟨none, none, true, tc⟩).messageBuffer = "") ∧
    (st.currentTranscription = "" →
      (onmessage now st ⟨none, none, true, tc⟩).conversationHistory =
          st.conversationHistory ∧
        (onmessage now st ⟨none, none, true, tc⟩).currentTranscription = "" ∧
        (onmessage now st ⟨none, none, true, tc⟩).messageBuffer = "") ∧
    (stM.awaitingManualResponse = true →
      ((stM.currentTranscription ≠ "" ∧ stM.messageBuffer ≠ "") →
        (onmessageManual now stM ⟨none, none, true, tc⟩).conversationHistory =
            stM.conversationHistory ++
              [⟨now, jsTrim stM.currentTranscription, jsTrim stM.messageBuffer⟩] ∧
          (onmessageManual now stM ⟨none, none, true, tc⟩).currentTranscription = "" ∧
          (onmessageManual now stM ⟨none, none, true, tc⟩).messageBuffer = "" ∧
          (onmessageManual now stM ⟨none, none, true, tc⟩).awaitingManualResponse = false) ∧
      (¬(stM.currentTranscription ≠ "" ∧ stM.messageBuffer ≠ "") →
        (onmessageManual now stM ⟨none, none, true, tc⟩).conversationHistory =
            stM.conversationHistory ∧
          (onmessageManual now stM ⟨none, none, true, tc⟩).currentTranscription =
            stM.currentTranscription ∧
          (onmessageManual now stM ⟨none, none, true, tc⟩).messageBuffer = "" ∧
          (onmessageManual now stM ⟨none, none, true, tc⟩).awaitingManualResponse = false)) ∧
    (stM.awaitingManualResponse = false →
      onmessageManual now stM ⟨none, none, true, tc⟩ = stM) ∧
    (∀ rs : List SpeakerResult,
      jsIncludes (formatSpeakerResults rs) "[Interviewer]:" = true →
      (onmessageManual now stM ⟨some rs, none, true, tc⟩).conversationHistory =
          stM.conversationHistory ∧
        (onmessageManual now stM ⟨some rs, none, true, tc⟩).messageBuffer =
          stM.messageBuffer ∧
        (onmessageManual now stM ⟨some rs, none, true, tc⟩).awaitingManualResponse =
          false) := by
  refine ⟨?_, ?_, ?_, ?_, ?_, ?_⟩
  · rintro ⟨h1, h2⟩
    simp only [onmessage, if_pos (And.intro h1 h2), saveConversationTurn,
      if_neg hsid]
    exact ⟨rfl, rfl, rfl⟩
  · intro h2
    have hnot : ¬(st.currentTranscription ≠ "" ∧ st.messageBuffer ≠ "") := by
      simp [h2]
    simp only [onmessage, if_neg hnot]
    exact ⟨rfl, rfl, rfl⟩
  · intro h1
    have hnot : ¬(st.currentTranscription ≠ "" ∧ st.messageBuffer ≠ "") := by
      simp [h1]
    simp only [onmessage, if_neg hnot]
    exact ⟨rfl, h1, rfl⟩
  · intro haw
    constructor
    · rintro ⟨h1, h2⟩
      simp [onmessageManual, haw, if_pos (And.intro h1 h2),
        saveConversationTurnM, if_neg hsidM]
    · intro hnot
      simp [onmessageManual, haw, if_neg hnot]
  · intro haw
    simp [onmessageManual, haw]
  · intro rs hrs
    simp [onmessageManual, hrs]

/-- C3 witness: the amended theorem applied at concrete states of both
handlers, each holding a pending transcript and a pending response (the
second one awaiting a manual response). -/
theorem turn_completion_amended_witness :
    ((⟨some "1", "q", "a", [], false, none, 0⟩ : GeminiState).currentSessionId ≠ none ∧
      (⟨some "1", "q", "a", [], "", none, true⟩ :
        ManualGeminiState).currentSessionId ≠ none) ∧
    (onmessage 7 ⟨some "1", "q", "a", [], false, none, 0⟩
        ⟨none, none, true, true⟩).conversationHistory =
      (⟨some "1", "q", "a", [], false, none, 0⟩ : GeminiState).conversationHistory ++
        [⟨7, jsTrim "q", jsTrim "a"⟩] ∧
    (onmessageManual 7 ⟨some "1", "q", "a", [], "", none, true⟩
        ⟨none, none, true, true⟩).conversationHistory =
      (⟨some "1", "q", "a", [], "", none, true⟩ :
          ManualGeminiState).conversationHistory ++
        [⟨7, jsTrim "q", jsTrim "a"⟩] :=
  ⟨⟨by decide, by decide⟩,
    ((turn_completion_amended 7 ⟨some "1", "q", "a", [], false, none, 0⟩
      ⟨some "1", "q", "a", [], "", none, true⟩ true
      (by decide) (by decide)).1 ⟨by decide, by decide⟩).1,
    (((turn_completion_amended 7 ⟨some "1", "q", "a", [], false, none, 0⟩
      ⟨some "1", "q", "a", [], "", none, true⟩ true
      (by decide) (by decide)).2.2.2.1 rfl).1 ⟨by decide, by decide⟩).1⟩

/-! ## Reconnection controller (`attemptReconnection`, gemini.js lines 166-210)

The opaque result of the inner `initializeGeminiSession` call on attempt `n`
is abstracted by the oracle `initOk n` (`false` covers a thrown error, a
`null` return, and the `false` guard rejection alike, exactly as the
JavaScript `if (session && ...)` treats them).  The single-threaded event
loop allows a `close-session` IPC call to run while an attempt sleeps in its
2-second delay; `clearedDuring n` records whether that happened during
attempt `n`'s delay, in which case `lastSessionParams` is `null` when the
attempt resumes and the `lastSessionParams.apiKey` access throws (caught by
the surrounding `try`), so the attempt fails. -/

/-- `sendReconnectionContext` (gemini.js lines 85-114) as a pure function of
the history: the text frame it sends, if any.  Transcriptions that are empty
or whitespace-only are filtered out (`t && t.trim().length > 0`). -/
def reconnectionContextMessage (history : List ConversationTurn) : Option String :=
  if history = [] then none
  else
    let transcriptions := (history.map ConversationTurn.transcription).filter
      (fun t => t != "" && jsTrim t != "")
    if transcriptions = [] then none
    else
      some ("Till now all these questions were asked in the interview, answer the last one please:\n\n"
        ++ String.intercalate "\n" transcriptions)

/-- The events of a successful reconnection's context replay: one text frame,
or nothing when there is no usable transcript. -/
def contextEvents (history : List ConversationTurn) : List Event :=
  match reconnectionContextMessage history with
  | some msg => [Event.contextSent msg]
  | none => []

/-- `attemptReconnection` (gemini.js lines 166-210).  Returns the final module
state, the trace of observable events, and the promised boolean result. -/
def attemptReconnection (initOk clearedDuring : Nat → Bool) (st : GeminiState) :
    GeminiState × List Event × Bool :=
  if h : st.lastSessionParams = none ∨ maxReconnectionAttempts ≤ st.reconnectionAttempts then
    (st, [.statusMsg "Session closed"], false)
  else
    let a := st.reconnectionAttempts + 1
    let st2 : GeminiState :=
      { st with
        reconnectionAttempts := a
        lastSessionParams :=
          if clearedDuring a then none else st.lastSessionParams }
    if st2.lastSessionParams.isSome ∧ initOk a then
      let st3 := { st2 with reconnectionAttempts := 0 }
      (st3, [.delay reconnectionDelay, .attemptStart a, .connected]
        ++ contextEvents st3.conversationHistory, true)
    else
      if a < maxReconnectionAttempts then
        let r := attemptReconnection initOk clearedDuring st2
        (r.1, [.delay reconnectionDelay, .attemptStart a] ++ r.2.1, r.2.2)
      else
        (st2, [.delay reconnectionDelay, .attemptStart a,
          .statusMsg "Session closed"], false)
termination_by maxReconnectionAttempts - st.reconnectionAttempts
decreasing_by
  have h2 : ¬ maxReconnectionAttempts ≤ st.reconnectionAttempts :=
    fun hh => h (Or.inr hh)
  simp
  omega

/-- When the guard at the top of `attemptReconnection` fails (no stored
parameters, or the attempt budget already spent), no attempt is started:
only the terminal status is emitted. -/
theorem attemptReconnection_guard (initOk clearedDuring : Nat → Bool)
    (st : GeminiState)
    (h : st.lastSessionParams = none ∨ maxReconnectionAttempts ≤ st.reconnectionAttempts) :
    attemptReconnection initOk clearedDuring st =
      (st, [.statusMsg "Session closed"], false) := by
  unfold attemptReconnection
  rw [dif_pos h]

/-- When every initialization attempt fails and no concurrent close occurs,
a run started with stored parameters and a fresh attempt counter makes
exactly three attempts, each preceded by the 2000 ms delay, then reports the
terminal closed status. -/
theorem attemptReconnection_exhaust (initOk : Nat → Bool)
    (hio : ∀ n, initOk n = false) (st : GeminiState) (p : SessionParams)
    (hp : st.lastSessionParams = some p) (h0 : st.reconnectionAttempts = 0) :
    attemptReconnection initOk (fun _ => false) st =
      ({ st with reconnectionAttempts := 3 },
        [.delay 2000, .attemptStart 1, .delay 2000, .attemptStart 2,
          .delay 2000, .attemptStart 3, .statusMsg "Session closed"], false) := by
  obtain ⟨sid, ct, mb, hist, ini, params, att⟩ := st
  simp only at hp h0
  subst hp h0
  simp [attemptReconnection, hio, maxReconnectionAttempts, reconnectionDelay]

/-- C4: with stored session parameters and a fresh counter, a run in which
every reinitialization fails makes exactly `maxReconnectionAttempts = 3`
attempts, each preceded by the fixed 2000 ms delay, then reports the terminal
"Session closed" status and stops; and no attempt is ever started when no
parameters are stored or the counter has already reached the maximum. -/
theorem reconnection_bounded_retry :
    (∀ (initOk : Nat → Bool) (st : GeminiState) (p : SessionParams),
      (∀ n, initOk n = false) → st.lastSessionParams = some p →
      st.reconnectionAttempts = 0 →
      attemptReconnection initOk (fun _ => false) st =
        ({ st with reconnectionAttempts := 3 },
          [.delay 2000, .attemptStart 1, .delay 2000, .attemptStart 2,
            .delay 2000, .attemptStart 3, .statusMsg "Session closed"], false)) ∧
    (∀ (initOk clearedDuring : Nat → Bool) (st : GeminiState),
      st.lastSessionParams = none ∨ maxReconnectionAttempts ≤ st.reconnectionAttempts →
      attemptReconnection initOk clearedDuring st =
        (st, [.statusMsg "Session closed"], false)) :=
  ⟨fun initOk st p hio hp h0 => attemptReconnection_exhaust initOk hio st p hp h0,
   fun initOk clearedDuring st h => attemptReconnection_guard initOk clearedDuring st h⟩

/-- C4 witness: the exhaustion run and the guard, each at a concrete state. -/
theorem reconnection_bounded_retry_witness :
    (attemptReconnection (fun _ => false) (fun _ => false)
        ⟨some "1", "", "", [], false, some ⟨"k", "", "interview", "en-US"⟩, 0⟩ =
      (⟨some "1", "", "", [], false, some ⟨"k", "", "interview", "en-US"⟩, 3⟩,
        [.delay 2000, .attemptStart 1, .delay 2000, .attemptStart 2,
          .delay 2000, .attemptStart 3, .statusMsg "Session closed"], false)) ∧
    (attemptReconnection (fun _ => true) (fun _ => false)
        ⟨some "1", "", "", [], false, none, 0⟩ =
      (⟨some "1", "", "", [], false, none, 0⟩,
        [.statusMsg "Session closed"], false)) :=
  ⟨reconnection_bounded_retry.1 (fun _ => false)
      ⟨some "1", "", "", [], false, some ⟨"k", "", "interview", "en-US"⟩, 0⟩
      ⟨"k", "", "interview", "en-US"⟩ (fun _ => rfl) rfl rfl,
   reconnection_bounded_retry.2 (fun _ => true) (fun _ => false)
      ⟨some "1", "", "", [], false, none, 0⟩ (Or.inl rfl)⟩

/-- The effect of the `close-session` IPC handler (gemini.js lines 901-919)
on the reconnection-relevant state: `lastSessionParams = null` (the audio
process and the transport handle are external resources outside this state). -/
def closeSessionHandler (st : GeminiState) : GeminiState :=
  { st with lastSessionParams := none }

/-- A retry attempt that observes cleared parameters, or whose delay a
concurrent close interrupts, establishes no session: helper for C6. -/
theorem attemptReconnection_cleared_during (initOk clearedDuring : Nat → Bool)
    (st : GeminiState) (p : SessionParams)
    (hp : st.lastSessionParams = some p)
    (ha : st.reconnectionAttempts < maxReconnectionAttempts)
    (hc : clearedDuring (st.reconnectionAttempts + 1) = true) :
    attemptReconnection initOk clearedDuring st =
      ({ st with
          reconnectionAttempts := st.reconnectionAttempts + 1
          lastSessionParams := none },
        [.delay reconnectionDelay, .attemptStart (st.reconnectionAttempts + 1),
          .statusMsg "Session closed"], false) := by
  unfold attemptReconnection
  rw [dif_neg (by rw [hp]; simp; omega)]
  simp only [hc, if_true, Option.isSome_none, false_and, if_false,
    Bool.false_eq_true]
  by_cases hlt : st.reconnectionAttempts + 1 < maxReconnectionAttempts
  · rw [if_pos hlt, attemptReconnection_guard _ _ _ (Or.inl rfl)]
    rfl
  · rw [if_neg hlt]

/-- C6: explicitly closing a session clears the stored `SessionParams`; a
reconnection run that starts against cleared parameters is a no-op (terminal
status only, no attempt started, no session established); and a retry whose
2-second sleep is interleaved with a close observes the cleared parameters
and establishes no session (its recursive successor stops at the top-of-
attempt check). -/
theorem close_session_cancels_reconnection :
    (∀ st : GeminiState, (closeSessionHandler st).lastSessionParams = none) ∧
    (∀ (initOk clearedDuring : Nat → Bool) (st : GeminiState),
      st.lastSessionParams = none →
      attemptReconnection initOk clearedDuring st =
        (st, [.statusMsg "Session closed"], false)) ∧
    (∀ (initOk clearedDuring : Nat → Bool) (st : GeminiState) (p : SessionParams),
      st.lastSessionParams = some p →
      st.reconnectionAttempts < maxReconnectionAttempts →
      clearedDuring (st.reconnectionAttempts + 1) = true →
      Event.connected ∉ (attemptReconnection initOk clearedDuring st).2.1 ∧
        (attemptReconnection initOk clearedDuring st).2.2 = false ∧
        (attemptReconnection initOk clearedDuring st).1.lastSessionParams = none) := by
  refine ⟨fun st => rfl, ?_, ?_⟩
  · intro initOk clearedDuring st h
    exact attemptReconnection_guard initOk clearedDuring st (Or.inl h)
  · intro initOk clearedDuring st p hp ha hc
    rw [attemptReconnection_cleared_during initOk clearedDuring st p hp ha hc]
    refine ⟨?_, rfl, rfl⟩
    intro hmem
    simp at hmem

/-- C6 witness: a close followed by a retry against the cleared state, and a
clear interleaved with the first retry delay, at concrete inputs. -/
theorem close_session_cancels_reconnection_witness :
    ((closeSessionHandler ⟨some "1", "", "", [], false,
        some ⟨"k", "", "interview", "en-US"⟩, 0⟩).lastSessionParams = none ∧
      (⟨some "1", "", "", [], false, none, 1⟩ : GeminiState).lastSessionParams = none ∧
      attemptReconnection (fun _ => true) (fun _ => false)
          ⟨some "1", "", "", [], false, none, 1⟩ =
        (⟨some "1", "", "", [], false, none, 1⟩,
          [.statusMsg "Session closed"], false)) ∧
    ((⟨some "1", "", "", [], false, some ⟨"k", "", "interview", "en-US"⟩, 0⟩ :
        GeminiState).lastSessionParams = some ⟨"k", "", "interview", "en-US"⟩ ∧
      Event.connected ∉ (attemptReconnection (fun _ => true) (fun _ => true)
          ⟨some "1", "", "", [], false,
            some ⟨"k", "", "interview", "en-US"⟩, 0⟩).2.1) :=
  ⟨⟨close_session_cancels_reconnection.1 _, rfl,
    close_session_cancels_reconnection.2.1 (fun _ => true) (fun _ => false)
      ⟨some "1", "", "", [], false, none, 1⟩ rfl⟩,
   ⟨rfl,
    (close_session_cancels_reconnection.2.2 (fun _ => true) (fun _ => true)
      ⟨some "1", "", "", [], false, some ⟨"k", "", "interview", "en-US"⟩, 0⟩
      ⟨"k", "", "interview", "en-US"⟩ rfl (by decide) rfl).1⟩⟩

/-- A successful attempt: helper for C7. -/
theorem attemptReconnection_success (initOk clearedDuring : Nat → Bool)
    (st : GeminiState) (p : SessionParams)
    (hp : st.lastSessionParams = some p)
    (ha : st.reconnectionAttempts < maxReconnectionAttempts)
    (hc : clearedDuring (st.reconnectionAttempts + 1) = false)
    (hi : initOk (st.reconnectionAttempts + 1) = true) :
    attemptReconnection initOk clearedDuring st =
      ({ st with reconnectionAttempts := 0 },
        [.delay reconnectionDelay, .attemptStart (st.reconnectionAttempts + 1),
          .connected] ++ contextEvents st.conversationHistory, true) := by
  unfold attemptReconnection
  rw [dif_neg (by rw [hp]; simp; omega)]
  simp only [hc, if_false, Bool.false_eq_true, hp, Option.isSome_some, hi,
    and_true, if_true, and_self]

/-- C7: a successful reconnection resets the attempt counter to zero and
replays context: it sends, as one text frame, the concatenation (newline-
separated) of the transcriptions of all prior turns — model responses
excluded, empty and whitespace-only transcriptions skipped — under the header
asking to answer only the most recent question; when no usable transcription
exists, no frame is sent. -/
theorem reconnection_success_replays_context :
    (∀ (initOk clearedDuring : Nat → Bool) (st : GeminiState) (p : SessionParams),
      st.lastSessionParams = some p →
      st.reconnectionAttempts < maxReconnectionAttempts →
      clearedDuring (st.reconnectionAttempts + 1) = false →
      initOk (st.reconnectionAttempts + 1) = true →
      attemptReconnection initOk clearedDuring st =
        ({ st with reconnectionAttempts := 0 },
          [.delay reconnectionDelay, .attemptStart (st.reconnectionAttempts + 1),
            .connected] ++ contextEvents st.conversationHistory, true)) ∧
    (∀ history : List ConversationTurn,
      (history.map ConversationTurn.transcription).filter
          (fun t => t != "" && jsTrim t != "") ≠ [] →
      reconnectionContextMessage history =
        some ("Till now all these questions were asked in the interview, answer the last one please:\n\n"
          ++ String.intercalate "\n"
            ((history.map ConversationTurn.transcription).filter
              (fun t => t != "" && jsTrim t != "")))) ∧
    (∀ history : List ConversationTurn,
      (history.map ConversationTurn.transcription).filter
          (fun t => t != "" && jsTrim t != "") = [] →
      reconnectionContextMessage history = none) := by
  refine ⟨attemptReconnection_success, ?_, ?_⟩
  · intro history hne
    have hh : history ≠ [] := by
      intro h
      subst h
      simp at hne
    unfold reconnectionContextMessage
    rw [if_neg hh, if_neg hne]
  · intro history he
    unfold reconnectionContextMessage
    by_cases hh : history = []
    · rw [if_pos hh]
    · rw [if_neg hh, if_pos he]

/-- C7 witness: a successful reconnection over a two-turn history (one usable
transcription, one whitespace-only) at concrete inputs. -/
theorem reconnection_success_replays_context_witness :
    ((⟨some "1", "", "", [⟨1, "Q1", "A1"⟩, ⟨2, " ", "A2"⟩], false,
        some ⟨"k", "", "interview", "en-US"⟩, 0⟩ :
          GeminiState).lastSessionParams = some ⟨"k", "", "interview", "en-US"⟩ ∧
      attemptReconnection (fun _ => true) (fun _ => false)
          ⟨some "1", "", "", [⟨1, "Q1", "A1"⟩, ⟨2, " ", "A2"⟩], false,
            some ⟨"k", "", "interview", "en-US"⟩, 0⟩ =
        (⟨some "1", "", "", [⟨1, "Q1", "A1"⟩, ⟨2, " ", "A2"⟩], false,
            some ⟨"k", "", "interview", "en-US"⟩, 0⟩,
          [.delay reconnectionDelay, .attemptStart 1, .connected] ++
            contextEvents [⟨1, "Q1", "A1"⟩, ⟨2, " ", "A2"⟩], true)) ∧
    reconnectionContextMessage [⟨1, "Q1", "A1"⟩, ⟨2, " ", "A2"⟩] =
      some ("Till now all these questions were asked in the interview, answer the last one please:\n\n"
        ++ String.intercalate "\n" ["Q1"]) :=
  ⟨⟨rfl,
    reconnection_success_replays_context.1 (fun _ => true) (fun _ => false)
      ⟨some "1", "", "", [⟨1, "Q1", "A1"⟩, ⟨2, " ", "A2"⟩], false,
        some ⟨"k", "", "interview", "en-US"⟩, 0⟩
      ⟨"k", "", "interview", "en-US"⟩ rfl (by decide) rfl rfl⟩,
   by
    have h := reconnection_success_replays_context.2.1
      [⟨1, "Q1", "A1"⟩, ⟨2, " ", "A2"⟩] (by decide)
    rw [h]
    rfl⟩

/-! ## Transport error and close handlers (gemini.js lines 292-339) -/

/-- The `isApiKeyError` test shared by the `onerror` and `onclose` callbacks:
the message is truthy and contains one of the four recognized
authentication-failure phrases. -/
def isApiKeyErrorMsg (m : String) : Bool :=
  m != "" &&
    (jsIncludes m "API key not valid" || jsIncludes m "invalid API key" ||
      jsIncludes m "authentication failed" || jsIncludes m "unauthorized")

/-- The `onerror` callback (gemini.js lines 292-312): on an authentication
failure, clear the stored parameters, exhaust the retry budget and surface
the distinct invalid-API-key error status; otherwise surface the generic
error status. -/
def onerror (st : GeminiState) (msg : String) : GeminiState × List Event :=
  if isApiKeyErrorMsg msg then
    ({ st with
        lastSessionParams := none
        reconnectionAttempts := maxReconnectionAttempts },
      [.statusMsg "Error: Invalid API key"])
  else
    (st, [.statusMsg ("Error: " ++ msg)])

/-- The `onclose` callback (gemini.js lines 313-339): on an authentication
failure, clear the stored parameters, exhaust the retry budget and surface
the distinct closed status; otherwise trigger reconnection when parameters
are stored and budget remains, else surface the generic closed status. -/
def onclose (initOk clearedDuring : Nat → Bool) (st : GeminiState)
    (reason : String) : GeminiState × List Event :=
  if isApiKeyErrorMsg reason then
    ({ st with
        lastSessionParams := none
        reconnectionAttempts := maxReconnectionAttempts },
      [.statusMsg "Session closed: Invalid API key"])
  else if st.lastSessionParams ≠ none ∧
      st.reconnectionAttempts < maxReconnectionAttempts then
    ((attemptReconnection initOk clearedDuring st).1,
      (attemptReconnection initOk clearedDuring st).2.1)
  else
    (st, [.statusMsg "Session closed"])

/-- C5: whenever the transport error message or close reason matches an
authentication failure, both handlers perform zero reconnection attempts
regardless of remaining budget: they clear the stored `SessionParams`, set
the attempt counter to the maximum, and emit only the distinct terminal
invalid-API-key status (no delay, no attempt, no connection event). -/
theorem auth_failure_fast_path (st : GeminiState) (msg : String)
    (h : isApiKeyErrorMsg msg = true) :
    onerror st msg =
      ({ st with
          lastSessionParams := none
          reconnectionAttempts := maxReconnectionAttempts },
        [.statusMsg "Error: Invalid API key"]) ∧
    ∀ initOk clearedDuring : Nat → Bool,
      onclose initOk clearedDuring st msg =
        ({ st with
            lastSessionParams := none
            reconnectionAttempts := maxReconnectionAttempts },
          [.statusMsg "Session closed: Invalid API key"]) := by
  constructor
  · unfold onerror
    rw [if_pos h]
  · intro initOk clearedDuring
    unfold onclose
    rw [if_pos h]

/-- C5 witness: the fast path at a concrete state with full remaining budget
and a concrete close reason containing a recognized phrase. -/
theorem auth_failure_fast_path_witness :
    isApiKeyErrorMsg "Error: API key not valid. Please pass a valid API key." = true ∧
    onerror ⟨some "1", "", "", [], false, some ⟨"k", "", "interview", "en-US"⟩, 0⟩
        "Error: API key not valid. Please pass a valid API key." =
      (⟨some "1", "", "", [], false, none, maxReconnectionAttempts⟩,
        [.statusMsg "Error: Invalid API key"]) :=
  ⟨by decide,
   (auth_failure_fast_path
      ⟨some "1", "", "", [], false, some ⟨"k", "", "interview", "en-US"⟩, 0⟩
      "Error: API key not valid. Please pass a valid API key." (by decide)).1⟩

/-! ## Session initialization (`initializeGeminiSession`, gemini.js lines
212-367) -/

/-- The promised value of `initializeGeminiSession`: `rejected` is the early
`return false` of the re-entrancy guard, `ok` a live session, `failed` the
`return null` of the catch branch. -/
inductive InitResult where
  | rejected
  | ok
  | failed
  deriving DecidableEq, Repr

/-- `initializeGeminiSession` (gemini.js lines 212-367).  `connectOk`
abstracts the outcome of the `client.live.connect` handshake; the handshake
itself is the `handshake` event.  For a fresh start (`isReconnection =
false`) the parameters are stored and the attempt counter reset before the
client is even created; the conversation session is also reset.  The
re-entrancy guard returns `false` before any renderer notification, client
creation or handshake. -/
def initGeminiSession (connectOk : Bool) (now : Nat) (p : SessionParams)
    (isReconnection : Bool) (st : GeminiState) :
    GeminiState × List Event × InitResult :=
  if st.isInitializingSession then
    (st, [], .rejected)
  else
    let st1 := { st with isInitializingSession := true }
    let st2 :=
      if !isReconnection then
        { st1 with lastSessionParams := some p, reconnectionAttempts := 0 }
      else st1
    let st3 := if !isReconnection then initNewSession now st2 else st2
    if connectOk then
      ({ st3 with isInitializingSession := false },
        [.sessionInitializing true, .handshake, .sessionInitializing false], .ok)
    else
      ({ st3 with isInitializingSession := false },
        [.sessionInitializing true, .handshake, .sessionInitializing false], .failed)

/-- C8: at most one session initialization is in flight — a start request
arriving while the `isInitializingSession` flag is set is rejected with a
failure result, the state untouched and no handshake (or any other transport
event) issued; a request that passes the guard issues exactly one handshake
and clears the flag on both the success and the failure path. -/
theorem single_initialization_in_flight (connectOk : Bool) (now : Nat)
    (p : SessionParams) (isReconnection : Bool) (st : GeminiState) :
    (st.isInitializingSession = true →
      initGeminiSession connectOk now p isReconnection st = (st, [], .rejected)) ∧
    (st.isInitializingSession = false →
      ((initGeminiSession connectOk now p isReconnection st).2.1.count .handshake = 1 ∧
        (initGeminiSession connectOk now p isReconnection st).1.isInitializingSession =
          false)) := by
  constructor
  · intro h
    unfold initGeminiSession
    rw [if_pos h]
  · intro h
    unfold initGeminiSession
    rw [if_neg (by rw [h]; exact Bool.false_ne_true)]
    rcases connectOk with _ | _ <;> rcases isReconnection with _ | _ <;>
      exact ⟨rfl, rfl⟩

/-- C8 witness: a rejected concurrent start and a guarded start, at concrete
states. -/
theorem single_initialization_in_flight_witness :
    ((⟨none, "", "", [], true, none, 0⟩ : GeminiState).isInitializingSession = true ∧
      initGeminiSession true 5 ⟨"k", "", "interview", "en-US"⟩ false
          ⟨none, "", "", [], true, none, 0⟩ =
        (⟨none, "", "", [], true, none, 0⟩, [], .rejected)) ∧
    ((⟨none, "", "", [], false, none, 0⟩ : GeminiState).isInitializingSession = false ∧
      (initGeminiSession true 5 ⟨"k", "", "interview", "en-US"⟩ false
          ⟨none, "", "", [], false, none, 0⟩).2.1.count .handshake = 1) :=
  ⟨⟨rfl,
    (single_initialization_in_flight true 5 ⟨"k", "", "interview", "en-US"⟩ false
      ⟨none, "", "", [], true, none, 0⟩).1 rfl⟩,
   ⟨rfl,
    ((single_initialization_in_flight true 5 ⟨"k", "", "interview", "en-US"⟩ false
      ⟨none, "", "", [], false, none, 0⟩).2 rfl).1⟩⟩

/-- C10: every fresh (non-reconnection) start that passes the guard stores the
new parameters and resets the attempt counter to zero — from any prior state,
including an authentication lockout (`lastSessionParams = none`,
`reconnectionAttempts = maxReconnectionAttempts`) — and does so whether or not
the transport handshake succeeds. -/
theorem fresh_start_resets_lockout (connectOk : Bool) (now : Nat)
    (p : SessionParams) (st : GeminiState)
    (h : st.isInitializingSession = false) :
    (initGeminiSession connectOk now p false st).1.lastSessionParams = some p ∧
    (initGeminiSession connectOk now p false st).1.reconnectionAttempts = 0 := by
  unfold initGeminiSession
  rw [if_neg (by rw [h]; exact Bool.false_ne_true)]
  rcases connectOk with _ | _ <;> exact ⟨rfl, rfl⟩

/-- C10 witness: a fresh start from a locked-out state, with a failing
handshake, still stores the parameters and resets the counter. -/
theorem fresh_start_resets_lockout_witness :
    (⟨none, "", "", [], false, none, maxReconnectionAttempts⟩ :
        GeminiState).isInitializingSession = false ∧
    (initGeminiSession false 5 ⟨"k2", "", "interview", "en-US"⟩ false
        ⟨none, "", "", [], false, none, maxReconnectionAttempts⟩).1.lastSessionParams =
      some ⟨"k2", "", "interview", "en-US"⟩ :=
  ⟨rfl,
   (fresh_start_resets_lockout false 5 ⟨"k2", "", "interview", "en-US"⟩
      ⟨none, "", "", [], false, none, maxReconnectionAttempts⟩ rfl).1⟩

end Cracker
